import Mathlib

/-!
Shallow embedding of the decision core of the `affilai` repository
(`src-tauri/src/services/ai_affiliate.rs`,
`src-tauri/src/services/analytics_service.rs`,
`src-tauri/src/models/*.rs` and the platform-selection step of
`src-tauri/src/commands/affiliate_links.rs`), together with proofs of the
behavioural claims about it.

Modelling conventions:
* Rust `f64` score arithmetic is modelled over `ℚ`; every constant in the
  source is a short decimal literal, so all weighted sums are exact.
* Rust `i32` values are modelled as `ℤ`; the one place where the `i32`
  range is observable (`str::parse::<i32>` failing on overflow inside
  `unwrap_or`) is modelled explicitly via the `2147483647` bound.
* The regex patterns of the source are embedded as deterministic scanners
  implementing exactly the leftmost-match semantics of those patterns,
  with the character classes `\d` and `\s` restricted to ASCII.
* `Vec::sort_by` is a stable sort; its result is reproduced by
  `List.insertionSort` with the reflexive comparison used below.
* The wall-clock read in `generate_tracking_id` is made an explicit
  `nowMillis` parameter.
-/

namespace Affilai

/-- ASCII part of the regex class `\s` (space, tab, newline, vertical tab,
form feed, carriage return). -/
def isWs (c : Char) : Bool :=
  c == ' ' || c == '\t' || c == '\n' || c == '\x0b' || c == '\x0c' || c == '\r'

/-- Drops the leading run of regex-`\s*` whitespace. -/
def skipWs : List Char → List Char
  | [] => []
  | c :: t => if isWs c then skipWs t else c :: t

/-- Characters accepted by the separator class of the age regexes.  The
source files contain the bytes of a UTF-8 en-dash decoded as three mojibake
characters, so the class `[-â€“]` accepts a hyphen or any of those three
characters. -/
def dashLike (c : Char) : Bool :=
  c == '-' || c == 'â' || c == '€' || c == '“'

/-- Leading maximal digit run of a character list (the regex capture `\d+`). -/
def digitRun (l : List Char) : List Char := l.takeWhile (·.isDigit)

/-- Remainder after the leading maximal digit run. -/
def afterDigits (l : List Char) : List Char := l.dropWhile (·.isDigit)

/-- Numeric value of a digit run. -/
def digitsVal (ds : List Char) : ℕ :=
  ds.foldl (fun a c => 10 * a + (c.toNat - 48)) 0

/-- Lower-cases a string character by character (ASCII fragment of Rust's
`str::to_lowercase`). -/
def lowerStr (s : String) : String := String.mk (s.data.map Char.toLower)

/-- Occurrence of `needle` as a contiguous substring (Rust `str::contains`). -/
def hasSub (needle : List Char) : List Char → Bool
  | [] => needle.isEmpty
  | c :: t => needle.isPrefixOf (c :: t) || hasSub needle t

/-- String-level substring test. -/
def strContains (s pat : String) : Bool := hasSub pat.data s.data

/-- Greatest `i32` value; `str::parse::<i32>` fails above it. -/
def i32Max : ℕ := 2147483647

/-- Value of `ds.parse::<i32>().unwrap_or(d)` for a nonempty ASCII digit
run of value `n`. -/
def parseI32 (n : ℕ) (d : ℤ) : ℤ := if n ≤ i32Max then (n : ℤ) else d

/-! ## models/affiliate_link.rs and models/product.rs -/

/-- Mirror of `AffiliatePlatform` in `models/affiliate_link.rs`. -/
inductive AffiliatePlatform
  | tikTokShop
  | instagramShopping
  | amazonAssociates
  | youTubeShopping
  | pinterestBuyable
  | facebookShops
deriving DecidableEq, Repr

/-- Mirror of `AffiliatePlatform::to_string`. -/
def AffiliatePlatform.toStr : AffiliatePlatform → String
  | .tikTokShop => "tiktok"
  | .instagramShopping => "instagram"
  | .amazonAssociates => "amazon"
  | .youTubeShopping => "youtube"
  | .pinterestBuyable => "pinterest"
  | .facebookShops => "facebook"

/-- Position of a platform in the enumeration order of the scored-platform
list of `mock_ai_discovery_with_platforms`. -/
def AffiliatePlatform.enumIdx : AffiliatePlatform → ℕ
  | .tikTokShop => 0
  | .instagramShopping => 1
  | .amazonAssociates => 2
  | .youTubeShopping => 3
  | .pinterestBuyable => 4
  | .facebookShops => 5

/-- Mirror of `AffiliateProgramDiscovery` in `models/affiliate_link.rs`. -/
structure AffiliateProgramDiscovery where
  program_name : String
  platform : AffiliatePlatform
  commission_rate : ℚ
  cookie_duration : ℤ
  affiliate_url : String
  is_official : Bool
  confidence_score : ℚ
  audience_match_score : ℚ
  recommendation_reason : String
deriving DecidableEq, Repr

/-- Mirror of `Product` in `models/product.rs`. -/
structure Product where
  id : Option ℤ
  name : String
  category : String
  description : Option String
  price_range : Option String
  target_audience : Option String
  trending_score : Option ℤ
  notes : Option String
  image_url : Option String
  amazon_asin : Option String
  tiktok_product_id : Option String
  instagram_product_id : Option String
  youtube_video_id : Option String
  pinterest_pin_id : Option String
  product_url : Option String
  created_at : Option String
  updated_at : Option String
deriving DecidableEq, Repr

/-- The comparison used by the descending stable sorts of both scorers. -/
instance keyGEDec {α : Type} (key : α → ℚ) : DecidableRel (fun a b : α => key a ≥ key b) :=
  fun a b => inferInstanceAs (Decidable (key b ≤ key a))

/-- Order produced by a stable descending sort on `key` of a list whose
original positions are given by `idx`: strictly larger key first, ties in
original (enumeration) order. -/
def rankedBelow {α : Type} (key : α → ℚ) (idx : α → ℕ) (a b : α) : Prop :=
  key b < key a ∨ (key a = key b ∧ idx a < idx b)

/-- Mirror of `f64::clamp` for in-range bounds. -/
def ratClamp (x lo hi : ℚ) : ℚ := max lo (min x hi)

/-! ## services/ai_affiliate.rs -/

namespace AiAffiliate

/-- Mirror of the private `PriceTier` enum. -/
inductive PriceTier
  | low
  | medium
  | high
  | premium
deriving DecidableEq, Repr

/-- Scanner for the price regex `\$?(\d+)`: the capture of the leftmost
match is the first maximal digit run of the text (the optional `$` never
changes the captured group). -/
def scanNum : List Char → Option ℕ
  | [] => none
  | c :: t => if c.isDigit then some (digitsVal (digitRun (c :: t))) else scanNum t

/-- Mirror of `parse_price_tier`: first number of the price text (default
`100` when `parse::<i32>` fails, i.e. above `i32Max`), bucketed by the
`<50 / <150 / <500` thresholds, `Medium` when no digits occur. -/
def parse_price_tier (price_range : String) : PriceTier :=
  match scanNum price_range.data with
  | none => PriceTier.medium
  | some n =>
    let price : ℤ := parseI32 n 100
    if price < 50 then PriceTier.low
    else if price < 150 then PriceTier.medium
    else if price < 500 then PriceTier.high
    else PriceTier.premium

/-- Tail of the age regex `(?i)age[s]?\s+(\d+)[-â€“]\s*(\d+)` after the
literal `age`: an optional `s`, mandatory whitespace, the two captured
digit runs around a `dashLike` separator.  (`[s]?` is deterministic here
because `\s+` can never start with the letter `s`.) -/
def matchAgeTail (l : List Char) : Option (ℤ × ℤ) :=
  let l1 := match l with
    | c :: t => if c.toLower == 's' then t else l
    | [] => l
  match l1 with
  | [] => none
  | c :: t =>
    if isWs c then
      let r1 := skipWs t
      let d1 := digitRun r1
      if d1.isEmpty then none
      else
        match afterDigits r1 with
        | [] => none
        | d :: r2 =>
          if dashLike d then
            let d2 := digitRun (skipWs r2)
            if d2.isEmpty then none
            else some (parseI32 (digitsVal d1) 25, parseI32 (digitsVal d2) 45)
          else none
    else none

/-- Leftmost match of the full age regex: tries every position for a
case-insensitive `age` followed by a successful `matchAgeTail`. -/
def scanAge : List Char → Option (ℤ × ℤ)
  | c0 :: c1 :: c2 :: t =>
    if c0.toLower == 'a' && c1.toLower == 'g' && c2.toLower == 'e' then
      match matchAgeTail t with
      | some p => some p
      | none => scanAge (c1 :: c2 :: t)
    else scanAge (c1 :: c2 :: t)
  | _ => none

/-- Mirror of `extract_age_range` in `ai_affiliate.rs` (regex match or the
`(25, 45)` fallback; this version has no generation-keyword fallback). -/
def extract_age_range (target_audience : String) : ℤ × ℤ :=
  (scanAge target_audience.data).getD (25, 45)

/-- Mirror of `calculate_age_alignment`. -/
def calculate_age_alignment (platform : String) (age_range : ℤ × ℤ) : ℚ :=
  let avg_age : ℤ := (age_range.1 + age_range.2) / 2
  if platform = "tiktok" then
    if 18 ≤ avg_age ∧ avg_age ≤ 30 then 1.0
    else if avg_age < 35 then 0.8
    else if avg_age < 40 then 0.5
    else 0.2
  else if platform = "instagram" then
    if 22 ≤ avg_age ∧ avg_age ≤ 40 then 1.0
    else if 18 ≤ avg_age ∧ avg_age ≤ 45 then 0.8
    else if avg_age < 50 then 0.6
    else 0.3
  else if platform = "youtube" then
    if 25 ≤ avg_age ∧ avg_age ≤ 55 then 1.0
    else if 18 ≤ avg_age then 0.7
    else 0.4
  else if platform = "pinterest" then
    if 30 ≤ avg_age ∧ avg_age ≤ 50 then 1.0
    else if 25 ≤ avg_age ∧ avg_age ≤ 55 then 0.8
    else 0.4
  else if platform = "amazon" then 0.9
  else 0.5

/-- Mirror of `calculate_category_fit`. -/
def calculate_category_fit (platform category : String) : ℚ :=
  if platform = "tiktok" then
    if category = "Beauty & Skincare" ∨ category = "Fashion & Apparel" then 1.0
    else if category = "Health & Wellness" ∨ category = "Fitness & Recovery" then 0.9
    else if category = "Consumer Electronics" then 0.7
    else if category = "Wearable Health Technology" then 0.8
    else 0.5
  else if platform = "instagram" then
    if category = "Beauty & Skincare" ∨ category = "Fashion & Apparel" then 1.0
    else if category = "Home & Kitchen" ∨ category = "Health & Wellness" then 0.9
    else if category = "Fitness & Recovery" then 0.8
    else 0.6
  else if platform = "youtube" then
    if category = "Consumer Electronics" ∨ category = "Wearable Health Technology" then 1.0
    else if category = "Fitness & Recovery" ∨ category = "Health & Wellness" then 0.9
    else if category = "Home & Kitchen" then 0.8
    else 0.7
  else if platform = "pinterest" then
    if category = "Home & Kitchen" ∨ category = "Fashion & Apparel" then 1.0
    else if category = "Beauty & Skincare" then 0.9
    else if category = "Health & Wellness" then 0.8
    else 0.6
  else if platform = "amazon" then 1.0
  else 0.5

/-- Mirror of `calculate_trending_fit`. -/
def calculate_trending_fit (platform : String) (trending_score : ℤ) : ℚ :=
  if platform = "tiktok" then
    if 85 ≤ trending_score then 1.0
    else if 75 ≤ trending_score then 0.8
    else if 65 ≤ trending_score then 0.5
    else 0.3
  else if platform = "instagram" then
    if 70 ≤ trending_score then 1.0
    else if 60 ≤ trending_score then 0.8
    else 0.6
  else if platform = "youtube" ∨ platform = "pinterest" then
    if 60 ≤ trending_score then 1.0
    else 0.8
  else if platform = "amazon" then 0.9
  else 0.5

/-- Mirror of `calculate_price_fit`. -/
def calculate_price_fit (platform : String) (price_tier : PriceTier) : ℚ :=
  if platform = "tiktok" then
    match price_tier with
    | .low | .medium => 1.0
    | .high => 0.6
    | .premium => 0.3
  else if platform = "instagram" then
    match price_tier with
    | .low | .medium | .high => 1.0
    | .premium => 0.7
  else if platform = "youtube" then
    match price_tier with
    | .medium | .high | .premium => 1.0
    | .low => 0.7
  else if platform = "pinterest" then
    match price_tier with
    | .low | .medium => 1.0
    | .high => 0.8
    | .premium => 0.5
  else if platform = "amazon" then 1.0
  else 0.5

/-- Mirror of `calculate_platform_score`: the weighted composite
(50% age, 25% category, 15% trending, 10% price). -/
def calculate_platform_score (platform category : String) (trending_score : ℤ)
    (age_range : ℤ × ℤ) (price_tier : PriceTier) : ℚ :=
  calculate_age_alignment platform age_range * 0.50
    + calculate_category_fit platform category * 0.25
    + calculate_trending_fit platform trending_score * 0.15
    + calculate_price_fit platform price_tier * 0.10

/-- Mirror of `generate_recommendation_reason`. -/
def generate_recommendation_reason (platform : String) (age_range : ℤ × ℤ)
    (category : String) : String :=
  let mn := toString age_range.1
  let mx := toString age_range.2
  if platform = "tiktok" then
    "Strong match for ages " ++ mn ++ "-" ++ mx ++ ", " ++ category
      ++ " performs well on TikTok"
  else if platform = "instagram" then
    "Ideal for ages " ++ mn ++ "-" ++ mx ++ ", visual platform for " ++ category
  else if platform = "youtube" then
    "Great for ages " ++ mn ++ "-" ++ mx ++ ", detailed reviews boost " ++ category
      ++ " sales"
  else if platform = "pinterest" then
    "Perfect for ages " ++ mn ++ "-" ++ mx ++ ", discovery-driven for " ++ category
  else if platform = "amazon" then
    "Universal platform for ages " ++ mn ++ "-" ++ mx ++ ", broad " ++ category
      ++ " reach"
  else
    "Good match for ages " ++ mn ++ "-" ++ mx

/-- Lower-case and replace spaces, as in
`product_name.to_lowercase().replace(" ", c)`. -/
def lowerReplaceSpace (s : String) (c : Char) : String :=
  String.mk (s.data.map (fun ch => let ch' := ch.toLower; if ch' = ' ' then c else ch'))

/-- Mirror of `create_program_for_platform`. -/
def create_program_for_platform (product_name category platform : String)
    (platform_enum : AffiliatePlatform) (audience_match_score : ℚ)
    (age_range : ℤ × ℤ) : AffiliateProgramDiscovery :=
  let slug := lowerReplaceSpace product_name '-'
  let quint : ℚ × ℤ × String × String × Bool :=
    if platform = "tiktok" then
      (0.12, 14, "TikTok Shop Creator Program",
        "https://affiliate.tiktok.com/" ++ slug, false)
    else if platform = "instagram" then
      (0.15, 30, "Instagram Shopping - " ++ product_name,
        "https://business.instagram.com/shopping/" ++ slug, false)
    else if platform = "youtube" then
      (0.10, 30, "YouTube Shopping Affiliate",
        "https://shopping.youtube.com/products/" ++ slug, false)
    else if platform = "pinterest" then
      (0.13, 30, "Pinterest Buyable Pins",
        "https://business.pinterest.com/buyable/" ++ slug, false)
    else if platform = "amazon" then
      let rate : ℚ :=
        if category = "Beauty & Skincare" ∨ category = "Health & Wellness" then 0.10
        else if category = "Fashion & Apparel" then 0.08
        else if category = "Consumer Electronics" then 0.04
        else if category = "Home & Kitchen" then 0.08
        else 0.05
      (rate, 24, "Amazon Associates", "https://affiliate-program.amazon.com", false)
    else (0.05, 30, "Generic Affiliate", "https://example.com", false)
  { program_name := quint.2.2.1
    platform := platform_enum
    commission_rate := quint.1
    cookie_duration := quint.2.1
    affiliate_url := quint.2.2.2.1
    is_official := quint.2.2.2.2
    confidence_score := 0.85 + (audience_match_score * 0.15)
    audience_match_score := audience_match_score
    recommendation_reason := generate_recommendation_reason platform age_range category }

/-- The five scored platforms, in the enumeration order of the source. -/
def platformsList : List (String × AffiliatePlatform) :=
  [("tiktok", .tikTokShop), ("instagram", .instagramShopping),
   ("amazon", .amazonAssociates), ("youtube", .youTubeShopping),
   ("pinterest", .pinterestBuyable)]

/-- Stable descending sort on a rational key: the unique outcome of Rust's
stable `sort_by` with comparator `b.key.partial_cmp(&a.key)`. -/
def sortByKeyDesc {α : Type} (key : α → ℚ) (l : List α) : List α :=
  List.insertionSort (fun a b => key a ≥ key b) l

/-- The `programs` vector built by the platform loop of
`mock_ai_discovery_with_platforms`: each platform scored against the
parsed age range and price tier, kept only when strictly above `0.3`. -/
def discoveredPrograms (product_name category : String) (trending_score : ℤ)
    (target_audience price_range : String) : List AffiliateProgramDiscovery :=
  platformsList.filterMap (fun pp =>
    let score := calculate_platform_score pp.1 category trending_score
      (extract_age_range target_audience) (parse_price_tier price_range)
    if score > 0.3 then
      some (create_program_for_platform product_name category pp.1 pp.2 score
        (extract_age_range target_audience))
    else none)

/-- Mirror of `mock_ai_discovery_with_platforms`: score the five platforms,
keep those strictly above `0.3`, sort stably by descending audience match
and return the first five. -/
def mock_ai_discovery_with_platforms (product_name category : String)
    (trending_score : ℤ) (target_audience price_range : String) :
    List AffiliateProgramDiscovery :=
  (sortByKeyDesc (·.audience_match_score)
    (discoveredPrograms product_name category trending_score target_audience price_range)).take 5

/-- Mirror of the legacy `mock_ai_discovery` wrapper. -/
def mock_ai_discovery (product_name category : String) :
    List AffiliateProgramDiscovery :=
  mock_ai_discovery_with_platforms product_name category 70 "Age 25-45" "$50-$100"

/-- Mirror of `generate_tracking_id`, with the wall-clock epoch-millisecond
read passed in as `nowMillis`. -/
def generate_tracking_id (nowMillis : ℕ) : String := "afl_" ++ toString nowMillis

/-- Mirror of `generate_tracking_url` (the `program_name` argument is
unused, as in the source). -/
def generate_tracking_url (platform program_name product_name destination_url : String)
    (nowMillis : ℕ) : String :=
  let tracking_id := generate_tracking_id nowMillis
  let campaign := lowerReplaceSpace product_name '_'
  if platform = "tiktok" then
    destination_url ++ "?utm_source=tiktok&utm_medium=affiliate&utm_campaign="
      ++ campaign ++ "&ref=" ++ tracking_id
  else if platform = "instagram" then
    destination_url ++ "?utm_source=instagram&utm_medium=shopping&utm_campaign="
      ++ campaign ++ "&ref=" ++ tracking_id
  else if platform = "amazon" then
    "https://www.amazon.com/dp/XXXXX?tag=affilai-20&linkCode=as2&ref=" ++ tracking_id
  else if platform = "youtube" then
    destination_url ++ "?utm_source=youtube&utm_medium=affiliate&utm_campaign="
      ++ campaign ++ "&ref=" ++ tracking_id
  else if platform = "pinterest" then
    destination_url ++ "?utm_source=pinterest&utm_medium=pin&utm_campaign="
      ++ campaign ++ "&ref=" ++ tracking_id
  else
    destination_url ++ "?ref=" ++ tracking_id ++ "&utm_campaign=" ++ campaign

end AiAffiliate

/-! ## services/analytics_service.rs -/

namespace AnalyticsService

/-- Mirror of the `AdType` enum. -/
inductive AdType
  | socialPost
  | story
  | videoScript
  | carousel
  | email
  | sms
deriving DecidableEq, Repr

/-- Mirror of `AdType::all`, in enumeration order. -/
def AdType.all : List AdType :=
  [.socialPost, .story, .videoScript, .carousel, .email, .sms]

/-- Position in the `AdType::all` enumeration order. -/
def AdType.enumIdx : AdType → ℕ
  | .socialPost => 0
  | .story => 1
  | .videoScript => 2
  | .carousel => 3
  | .email => 4
  | .sms => 5

/-- Mirror of `AdType::display_name`. -/
def AdType.display_name : AdType → String
  | .socialPost => "Social Media Post"
  | .story => "Story"
  | .videoScript => "Video Script"
  | .carousel => "Carousel"
  | .email => "Email"
  | .sms => "SMS"

/-- Mirror of `MarketAnalysis`. -/
structure MarketAnalysis where
  recommended_ad_type : AdType
  confidence_score : ℚ
  reasoning : String
  alternative_types : List AdType
deriving DecidableEq, Repr

/-- Mirror of the internal `AdTypeScore` record. -/
structure AdTypeScore where
  ad_type : AdType
  category_score : ℚ
  audience_score : ℚ
  trending_score : ℚ
  platform_score : ℚ
  total_score : ℚ
deriving DecidableEq, Repr

/-- Mirror of `AdTypeScore::calculate_total` (weights: category 30%,
audience 35%, trending 20%, platform 15%), returning the updated record
instead of mutating it. -/
def AdTypeScore.calculate_total (s : AdTypeScore) : AdTypeScore :=
  { s with total_score :=
      (s.category_score * 0.30) + (s.audience_score * 0.35)
        + (s.trending_score * 0.20) + (s.platform_score * 0.15) }

/-- Mirror of `calculate_category_score` (case-insensitive substring bands
per format). -/
def calculate_category_score (category : String) (ad_type : AdType) : ℚ :=
  let c := lowerStr category
  match ad_type with
  | .videoScript =>
    if strContains c "electronics" || strContains c "tech"
        || strContains c "wearable" || strContains c "gadget" then 1.0
    else if strContains c "fitness" || strContains c "health" then 0.8
    else if strContains c "home" || strContains c "kitchen" then 0.6
    else 0.4
  | .carousel =>
    if strContains c "fashion" || strContains c "apparel"
        || strContains c "clothing" then 1.0
    else if strContains c "beauty" || strContains c "skincare"
        || strContains c "cosmetic" then 0.9
    else if strContains c "home" || strContains c "decor"
        || strContains c "furniture" then 0.85
    else if strContains c "jewelry" || strContains c "accessories" then 0.9
    else 0.5
  | .story =>
    if strContains c "beauty" || strContains c "skincare" then 0.95
    else if strContains c "fashion" || strContains c "apparel" then 0.9
    else if strContains c "food" || strContains c "beverage" then 0.85
    else if strContains c "fitness" || strContains c "wellness" then 0.8
    else 0.5
  | .socialPost =>
    if strContains c "trending" || strContains c "viral" then 0.95
    else if strContains c "gadget" || strContains c "tech" then 0.7
    else 0.6
  | .email =>
    if strContains c "health" || strContains c "wellness"
        || strContains c "supplement" then 0.9
    else if strContains c "finance" || strContains c "insurance" then 0.95
    else if strContains c "electronics" || strContains c "appliance" then 0.7
    else 0.5
  | .sms =>
    if strContains c "food" || strContains c "restaurant" then 0.9
    else if strContains c "deal" || strContains c "flash" then 0.95
    else if strContains c "local" || strContains c "service" then 0.8
    else 0.3

/-- Scanner for the analytics age regex `(\d{2})[-â€“]\s*(\d{2})`: value of
a two-digit group. -/
def twoDigitVal (a b : Char) : ℤ := ((10 * (a.toNat - 48) + (b.toNat - 48) : ℕ) : ℤ)

/-- Second capture of the analytics age regex: two digits after `\s*`. -/
def twoDigitsAt : List Char → Option ℤ
  | a :: b :: _ => if a.isDigit && b.isDigit then some (twoDigitVal a b) else none
  | _ => none

/-- Leftmost match of `(\d{2})[-â€“]\s*(\d{2})`. -/
def scanPair : List Char → Option (ℤ × ℤ)
  | a :: b :: d :: rest =>
    if a.isDigit && b.isDigit && dashLike d then
      match twoDigitsAt (skipWs rest) with
      | some m => some (twoDigitVal a b, m)
      | none => scanPair (b :: d :: rest)
    else scanPair (b :: d :: rest)
  | _ => none

/-- Mirror of `extract_age_range` in `analytics_service.rs`: two-digit
pair via the regex, then the (case-sensitive) generation-keyword fallback,
then the `(25, 45)` default. -/
def extract_age_range (audience : String) : ℤ × ℤ :=
  match scanPair audience.data with
  | some p => p
  | none =>
    if strContains audience "gen z" || strContains audience "genz" then (18, 25)
    else if strContains audience "millennial" then (26, 40)
    else if strContains audience "gen x" || strContains audience "genx" then (41, 55)
    else if strContains audience "boomer" || strContains audience "senior" then (56, 70)
    else (25, 45)

/-- Mirror of `calculate_audience_score` (generation flags from keywords
and the parsed age band, then the per-format table). -/
def calculate_audience_score (target_audience : Option String) (ad_type : AdType) : ℚ :=
  match target_audience with
  | none => 0.5
  | some audience =>
    let audience_lower := lowerStr audience
    let age_range := extract_age_range audience_lower
    let avg_age : ℤ := (age_range.1 + age_range.2) / 2
    let is_gen_z : Bool := strContains audience_lower "gen z"
      || strContains audience_lower "genz"
      || strContains audience_lower "zoomer"
      || decide (18 ≤ avg_age ∧ avg_age ≤ 25)
    let is_millennial : Bool := strContains audience_lower "millennial"
      || decide (26 ≤ avg_age ∧ avg_age ≤ 40)
    let is_gen_x : Bool := strContains audience_lower "gen x"
      || strContains audience_lower "genx"
      || decide (41 ≤ avg_age ∧ avg_age ≤ 55)
    let is_boomer : Bool := strContains audience_lower "boomer"
      || strContains audience_lower "senior"
      || decide (55 < avg_age)
    match ad_type with
    | .story =>
      if is_gen_z then 1.0
      else if is_millennial then 0.75
      else if is_gen_x then 0.4
      else 0.2
    | .socialPost =>
      if is_gen_z then 0.9
      else if is_millennial then 0.85
      else if is_gen_x then 0.6
      else 0.4
    | .videoScript =>
      if is_millennial then 0.9
      else if is_gen_x then 0.85
      else if is_gen_z then 0.7
      else 0.6
    | .carousel =>
      if is_millennial then 0.9
      else if is_gen_z then 0.8
      else if is_gen_x then 0.7
      else 0.5
    | .email =>
      if is_boomer then 1.0
      else if is_gen_x then 0.9
      else if is_millennial then 0.7
      else 0.4
    | .sms =>
      if is_gen_x then 0.8
      else if is_boomer then 0.75
      else if is_millennial then 0.6
      else 0.5

/-- Mirror of `calculate_trending_score` (banded per format, default 50). -/
def calculate_trending_score (trending_score : Option ℤ) (ad_type : AdType) : ℚ :=
  let score := trending_score.getD 50
  match ad_type with
  | .socialPost =>
    if 80 ≤ score then 1.0
    else if 60 ≤ score then 0.8
    else if 40 ≤ score then 0.6
    else 0.4
  | .story =>
    if 75 ≤ score then 0.95
    else if 50 ≤ score then 0.75
    else 0.55
  | .videoScript =>
    if 60 ≤ score then 0.8
    else 0.7
  | .carousel =>
    if 70 ≤ score then 0.85
    else if 50 ≤ score then 0.7
    else 0.6
  | .email =>
    if score < 50 then 0.85
    else if score < 70 then 0.75
    else 0.6
  | .sms => 0.6

/-- Mirror of `calculate_platform_score` in `analytics_service.rs`
(presence of per-platform identifiers per format). -/
def calculate_platform_score (product : Product) (ad_type : AdType) : ℚ :=
  let has_tiktok := product.tiktok_product_id.isSome
  let has_instagram := product.instagram_product_id.isSome
  let has_youtube := product.youtube_video_id.isSome
  let has_pinterest := product.pinterest_pin_id.isSome
  let has_amazon := product.amazon_asin.isSome
  let platform_count :=
    [has_tiktok, has_instagram, has_youtube, has_pinterest, has_amazon].count true
  match ad_type with
  | .story =>
    if has_tiktok then 0.95
    else if has_instagram then 0.85
    else 0.5
  | .carousel =>
    if has_instagram && has_pinterest then 1.0
    else if has_instagram then 0.9
    else if has_pinterest then 0.85
    else 0.5
  | .videoScript =>
    if has_youtube then 0.95
    else if has_tiktok then 0.7
    else 0.5
  | .socialPost =>
    if 3 ≤ platform_count then 0.9
    else if 1 ≤ platform_count then 0.75
    else 0.6
  | .email =>
    if has_amazon then 0.8
    else 0.65
  | .sms => 0.6

/-- Nearest-integer percentage used to embed the `{:.0}` formatting of the
confidence in the default reasoning sentence. -/
def fmtPercent (q : ℚ) : String := toString (Int.floor (q * 100 + 1 / 2))

/-- Mirror of `generate_reasoning` (threshold-gated clauses joined by
`". "`, or the default sentence). -/
def generate_reasoning (product : Product) (score : AdTypeScore) : String :=
  let r1 : List String :=
    if score.category_score ≥ 0.8 then
      ["The '" ++ product.category ++ "' category aligns strongly with "
        ++ score.ad_type.display_name ++ " format"]
    else []
  let r2 : List String :=
    match product.target_audience with
    | some audience =>
      if score.audience_score ≥ 0.8 then
        ["Target audience '" ++ audience ++ "' responds well to this format"]
      else []
    | none => []
  let r3 : List String :=
    match product.trending_score with
    | some trending =>
      if 80 ≤ trending ∧ score.trending_score ≥ 0.9 then
        ["High trending score suggests viral potential"]
      else if trending < 50 ∧ score.trending_score ≥ 0.7 then
        ["This format builds trust for products needing education"]
      else []
    | none => []
  let r4 : List String :=
    if score.platform_score ≥ 0.85 then
      let platforms : List String :=
        [product.tiktok_product_id.map (fun _ => "TikTok"),
         product.instagram_product_id.map (fun _ => "Instagram"),
         product.youtube_video_id.map (fun _ => "YouTube"),
         product.pinterest_pin_id.map (fun _ => "Pinterest")].filterMap id
      if platforms.isEmpty then []
      else
        ["Available on " ++ String.intercalate ", " platforms
          ++ " which natively supports this format"]
    else []
  let reasons := r1 ++ r2 ++ r3 ++ r4
  if reasons.isEmpty then
    score.ad_type.display_name ++ " selected as the balanced choice for '"
      ++ product.name ++ "' with confidence " ++ fmtPercent score.total_score ++ "%"
  else
    String.intercalate ". " reasons ++ "."

/-- Score record of one format for a product: fields as set in the loop of
`analyze_market_for_product`, total via `calculate_total`. -/
def mkScore (product : Product) (t : AdType) : AdTypeScore :=
  AdTypeScore.calculate_total
    { ad_type := t
      category_score := calculate_category_score product.category t
      audience_score := calculate_audience_score product.target_audience t
      trending_score := calculate_trending_score product.trending_score t
      platform_score := calculate_platform_score product t
      total_score := 0 }

/-- Composite total of one format for a product. -/
def adTotal (product : Product) (t : AdType) : ℚ := (mkScore product t).total_score

/-- The `scores` vector of `analyze_market_for_product`: one score record
per format, in enumeration order. -/
def scoresList (product : Product) : List AdTypeScore :=
  AdType.all.map (mkScore product)

/-- Mirror of `analyze_market_for_product`: score all six formats, sort
stably by descending total, recommend the head, clamp its total into the
confidence, and expose the next three formats as alternatives.  (The `[]`
branch is unreachable: the sorted list is a permutation of the six
scores.) -/
def analyze_market_for_product (product : Product) : MarketAnalysis :=
  let sorted := AiAffiliate.sortByKeyDesc (·.total_score) (scoresList product)
  match sorted with
  | best :: rest =>
    { recommended_ad_type := best.ad_type
      confidence_score := max 0 (min best.total_score 1)
      reasoning := generate_reasoning product best
      alternative_types := (rest.take 3).map (·.ad_type) }
  | [] =>
    { recommended_ad_type := .socialPost
      confidence_score := 0
      reasoning := ""
      alternative_types := [] }

/-- Mirror of `select_optimal_ad_type`. -/
def select_optimal_ad_type (product : Product) : AdType :=
  (analyze_market_for_product product).recommended_ad_type

end AnalyticsService

/-! ## commands/affiliate_links.rs: platform-selection step -/

/-- Platform-selection step of `generate_link_for_platform` in
`commands/affiliate_links.rs` (lines 188-192): the first discovered
program whose platform string equals the lower-cased requested platform,
or the "not available" error. -/
def select_platform_program (programs : List AffiliateProgramDiscovery)
    (platform : String) : Except String AffiliateProgramDiscovery :=
  match programs.find? (fun p => p.platform.toStr == lowerStr platform) with
  | some p => Except.ok p
  | none => Except.error ("Platform " ++ platform ++ " not available for this product")

/-! ## Specification-side definitions and concrete fixtures -/

/-- Threshold map stated by the specification for price tiers:
`<50→Low, <150→Medium, <500→High, else Premium`, applied to the numeric
value of the first digit run.  Used to compare `parse_price_tier` against
the spec's words. -/
def priceTierOfValue (n : ℕ) : AiAffiliate.PriceTier :=
  if n < 50 then .low
  else if n < 150 then .medium
  else if n < 500 then .high
  else .premium

/-- Test product of the `test_older_audience_favors_email` scenario:
category `Health & Wellness`, audience `Age 55-70, Boomers`, trending 40,
no platform identifiers. -/
def healthTestProduct : Product :=
  { id := some 1
    name := "Test Product"
    category := "Health & Wellness"
    description := some "Test description"
    price_range := some "$50-$100"
    target_audience := some "Age 55-70, Boomers"
    trending_score := some 40
    notes := none
    image_url := none
    amazon_asin := none
    tiktok_product_id := none
    instagram_product_id := none
    youtube_video_id := none
    pinterest_pin_id := none
    product_url := none
    created_at := none
    updated_at := none }

/-- The amazon program produced by a concrete discovery call, used to
instantiate the universally quantified output invariants. -/
def amazonWidgetProgram : AffiliateProgramDiscovery :=
  AiAffiliate.create_program_for_platform "Widget" "Books" "amazon"
    AffiliatePlatform.amazonAssociates
    (AiAffiliate.calculate_platform_score "amazon" "Books" 70
      (AiAffiliate.extract_age_range "Age 25-45")
      (AiAffiliate.parse_price_tier "$50-$100"))
    (AiAffiliate.extract_age_range "Age 25-45")

/-! ## Stable-sort infrastructure -/

theorem perm_sortByKeyDesc {α : Type} (key : α → ℚ) (l : List α) :
    (AiAffiliate.sortByKeyDesc key l).Perm l :=
  List.perm_insertionSort _ l

theorem rankedBelow_le {α : Type} {key : α → ℚ} {idx : α → ℕ} {a b : α}
    (h : rankedBelow key idx a b) : key b ≤ key a := by
  rcases h with h | h
  · exact le_of_lt h
  · exact le_of_eq h.1.symm

theorem pairwise_orderedInsertDesc {α : Type} (key : α → ℚ) (idx : α → ℕ) (x : α) :
    ∀ l : List α, l.Pairwise (rankedBelow key idx) → (∀ y ∈ l, idx x < idx y) →
      (List.orderedInsert (fun a b => key a ≥ key b) x l).Pairwise (rankedBelow key idx)
  | [], _, _ => List.pairwise_singleton _ _
  | y :: ys, hp, hx => by
    obtain ⟨hy, hys⟩ := List.pairwise_cons.mp hp
    by_cases h : key x ≥ key y
    · rw [List.orderedInsert, if_pos h]
      refine List.pairwise_cons.mpr ⟨?_, hp⟩
      intro z hz
      rcases List.mem_cons.mp hz with rfl | hz
      · rcases lt_or_eq_of_le h with hlt | heq
        · exact Or.inl hlt
        · exact Or.inr ⟨heq.symm, hx z (List.mem_cons_self z ys)⟩
      · have hzy : key z ≤ key y := rankedBelow_le (hy z hz)
        rcases lt_or_eq_of_le (le_trans hzy h) with hlt | heq
        · exact Or.inl hlt
        · exact Or.inr ⟨heq.symm, hx z (List.mem_cons_of_mem y hz)⟩
    · rw [List.orderedInsert, if_neg h]
      have hxy : key x < key y := lt_of_not_le h
      refine List.pairwise_cons.mpr ⟨?_,
        pairwise_orderedInsertDesc key idx x ys hys
          (fun z hz => hx z (List.mem_cons_of_mem y hz))⟩
      intro z hz
      rcases (List.mem_orderedInsert (fun a b => key a ≥ key b)).mp hz with rfl | hz
      · exact Or.inl hxy
      · exact hy z hz

theorem pairwise_sortByKeyDesc {α : Type} (key : α → ℚ) (idx : α → ℕ) :
    ∀ l : List α, l.Pairwise (fun a b => idx a < idx b) →
      (AiAffiliate.sortByKeyDesc key l).Pairwise (rankedBelow key idx)
  | [], _ => List.Pairwise.nil
  | x :: xs, hp => by
    obtain ⟨hx, hxs⟩ := List.pairwise_cons.mp hp
    exact pairwise_orderedInsertDesc key idx x (AiAffiliate.sortByKeyDesc key xs)
      (pairwise_sortByKeyDesc key idx xs hxs)
      (fun y hy => hx y ((perm_sortByKeyDesc key xs).subset hy))

/-- Membership in the conditional option used by the discovery filter. -/
theorem mem_ite_option {β : Type} {c : Prop} [Decidable c] {u b : β}
    (h : b ∈ (if c then some u else none)) : b = u ∧ c := by
  split_ifs at h with hc
  · have hub : u = b := by simpa using h
    exact ⟨hub.symm, hc⟩
  · simp at h

/-! ## C4: extract_age_range -/

/-- C4 counterexample: the generation-keyword fallback of
`extract_age_range` is case-sensitive, so the capitalised input
`"Gen Z shoppers"` does not hit the `"gen z"` keyword and falls through to
the default, contradicting the claimed value `(18, 25)`. -/
theorem extract_age_range_genz_capitalized_cex :
    AnalyticsService.extract_age_range "Gen Z shoppers" ≠ (18, 25) := by
  decide

/-- C4 (amended): `extract_age_range` returns the first two-digit pair on
a regex match, falls back to generation keywords matched case-sensitively
(so only on lower-cased text, as callers supply), and defaults to
`(25, 45)`; in particular `"Age 18-24" ↦ (18,24)`,
`"gen z shoppers" ↦ (18,25)`, `"Gen Z shoppers" ↦ (25,45)` and
`"" ↦ (25,45)`. -/
theorem extract_age_range_examples :
    AnalyticsService.extract_age_range "Age 18-24" = (18, 24)
    ∧ AnalyticsService.extract_age_range "gen z shoppers" = (18, 25)
    ∧ AnalyticsService.extract_age_range "Gen Z shoppers" = (25, 45)
    ∧ AnalyticsService.extract_age_range "" = (25, 45)
    ∧ AnalyticsService.extract_age_range "millennial" = (26, 40)
    ∧ AnalyticsService.extract_age_range "gen x" = (41, 55)
    ∧ AnalyticsService.extract_age_range "boomer parents" = (56, 70)
    ∧ AnalyticsService.extract_age_range "senior citizens" = (56, 70) := by
  decide

/-! ## C5: the Health & Wellness / Boomers / trending-40 scenario -/

/-- C5: for category `Health & Wellness`, audience `Age 55-70, Boomers`,
trending score 40 and no platform identifiers, the ad-type scorer
recommends `email`, whose composite strictly beats the five other formats;
the boomer audience band gives email audience score 1.0 and the inverted
trending band gives email trending score 0.85 at trending 40. -/
theorem analyze_health_boomer_recommends_email :
    (AnalyticsService.analyze_market_for_product healthTestProduct).recommended_ad_type
      = AnalyticsService.AdType.email
    ∧ AnalyticsService.adTotal healthTestProduct .socialPost
        < AnalyticsService.adTotal healthTestProduct .email
    ∧ AnalyticsService.adTotal healthTestProduct .story
        < AnalyticsService.adTotal healthTestProduct .email
    ∧ AnalyticsService.adTotal healthTestProduct .videoScript
        < AnalyticsService.adTotal healthTestProduct .email
    ∧ AnalyticsService.adTotal healthTestProduct .carousel
        < AnalyticsService.adTotal healthTestProduct .email
    ∧ AnalyticsService.adTotal healthTestProduct .sms
        < AnalyticsService.adTotal healthTestProduct .email
    ∧ AnalyticsService.calculate_audience_score (some "Age 55-70, Boomers") .email = 1.0
    ∧ AnalyticsService.calculate_trending_score (some 40) .email = 0.85 := by
  with_unfolding_all decide

/-! ## C6: parse_price_tier -/

/-- C6 counterexample: a digit run whose value exceeds `i32::MAX` makes
`parse::<i32>` fail, so the code falls back to `100` and returns `Medium`,
while the claimed threshold map sends `9999999999` to `Premium`. -/
theorem parse_price_tier_overflow_cex :
    AiAffiliate.parse_price_tier "$9999999999" ≠ priceTierOfValue 9999999999
    ∧ AiAffiliate.parse_price_tier "$9999999999" = AiAffiliate.PriceTier.medium := by
  constructor
  · decide
  · decide

/-- C6 (amended): the first run of digits is mapped by the spec's
threshold table whenever it fits in an `i32`; when there are no digits, or
the run overflows `i32` (the parse default `100` applies), the result is
`Medium`; in particular `"$30-$40" ↦ Low` and `"$300-400" ↦ High`. -/
theorem parse_price_tier_spec :
    (∀ (s : String) (n : ℕ), AiAffiliate.scanNum s.data = some n → n ≤ i32Max →
      AiAffiliate.parse_price_tier s = priceTierOfValue n)
    ∧ (∀ s : String, AiAffiliate.scanNum s.data = none →
      AiAffiliate.parse_price_tier s = AiAffiliate.PriceTier.medium)
    ∧ (∀ (s : String) (n : ℕ), AiAffiliate.scanNum s.data = some n → i32Max < n →
      AiAffiliate.parse_price_tier s = AiAffiliate.PriceTier.medium)
    ∧ AiAffiliate.parse_price_tier "$30-$40" = AiAffiliate.PriceTier.low
    ∧ AiAffiliate.parse_price_tier "$300-400" = AiAffiliate.PriceTier.high := by
  refine ⟨?_, ?_, ?_, by decide, by decide⟩
  · intro s n hscan hle
    have hred : AiAffiliate.parse_price_tier s =
        (let price : ℤ := parseI32 n 100
         if price < 50 then AiAffiliate.PriceTier.low
         else if price < 150 then AiAffiliate.PriceTier.medium
         else if price < 500 then AiAffiliate.PriceTier.high
         else AiAffiliate.PriceTier.premium) := by
      unfold AiAffiliate.parse_price_tier
      rw [hscan]
    rw [hred, show parseI32 n 100 = (n : ℤ) from if_pos hle]
    simp only [priceTierOfValue]
    split_ifs <;> first | rfl | omega
  · intro s hscan
    unfold AiAffiliate.parse_price_tier
    rw [hscan]
  · intro s n hscan hgt
    have hred : AiAffiliate.parse_price_tier s =
        (let price : ℤ := parseI32 n 100
         if price < 50 then AiAffiliate.PriceTier.low
         else if price < 150 then AiAffiliate.PriceTier.medium
         else if price < 500 then AiAffiliate.PriceTier.high
         else AiAffiliate.PriceTier.premium) := by
      unfold AiAffiliate.parse_price_tier
      rw [hscan]
    rw [hred, show parseI32 n 100 = (100 : ℤ) from if_neg (not_le.mpr hgt)]
    norm_num

/-- C6 witness: the three regimes of the amended claim at concrete
inputs. -/
theorem parse_price_tier_spec_witness :
    AiAffiliate.parse_price_tier "$30-$40" = priceTierOfValue 30
    ∧ AiAffiliate.parse_price_tier "" = AiAffiliate.PriceTier.medium
    ∧ AiAffiliate.parse_price_tier "$9999999999" = AiAffiliate.PriceTier.medium := by
  obtain ⟨h1, h2, h3, -, -⟩ := parse_price_tier_spec
  exact ⟨h1 "$30-$40" 30 (by decide) (by decide), h2 "" (by decide),
    h3 "$9999999999" 9999999999 (by decide) (by decide)⟩

/-! ## C7: the amazon branch of generate_tracking_url -/

/-- C7: for every program name, product name, destination URL and clock
value, `generate_tracking_url` on platform `"amazon"` contains the
substring `tag=affilai-20` and is independent of the supplied destination
URL (the fixed Amazon Associates template only varies in the time-derived
tracking id). -/
theorem generate_tracking_url_amazon
    (program_name product_name destination_url : String) (nowMillis : ℕ) :
    (∃ pre post,
      AiAffiliate.generate_tracking_url "amazon" program_name product_name
          destination_url nowMillis
        = pre ++ "tag=affilai-20" ++ post)
    ∧ ∀ other_url : String,
      AiAffiliate.generate_tracking_url "amazon" program_name product_name
          other_url nowMillis
        = AiAffiliate.generate_tracking_url "amazon" program_name product_name
          destination_url nowMillis := by
  constructor
  · exact ⟨"https://www.amazon.com/dp/XXXXX?",
      "&linkCode=as2&ref=" ++ AiAffiliate.generate_tracking_id nowMillis, rfl⟩
  · intro other_url
    rfl

/-! ## C8: platform selection of generate_link_for_platform -/

/-- C8: the platform-selection step fails with exactly the
"Platform {platform} not available for this product" error precisely when
no discovered program's platform string equals the lower-cased request; on
success it returns a discovered program whose platform string matches, and
a match guarantees success. -/
theorem select_platform_program_spec
    (programs : List AffiliateProgramDiscovery) (platform : String) :
    (select_platform_program programs platform
        = Except.error ("Platform " ++ platform ++ " not available for this product")
      ↔ ∀ p ∈ programs, p.platform.toStr ≠ lowerStr platform)
    ∧ (∀ q, select_platform_program programs platform = Except.ok q →
        q ∈ programs ∧ q.platform.toStr = lowerStr platform)
    ∧ ((∃ p ∈ programs, p.platform.toStr = lowerStr platform) →
        ∃ q, select_platform_program programs platform = Except.ok q) := by
  unfold select_platform_program
  cases hf : programs.find? (fun p => p.platform.toStr == lowerStr platform) with
  | none =>
    rw [List.find?_eq_none] at hf
    refine ⟨⟨fun _ => ?_, fun _ => rfl⟩, fun q hq => ?_, ?_⟩
    · intro p hp
      simpa using hf p hp
    · exact Except.noConfusion hq
    · rintro ⟨p, hp, he⟩
      exact absurd (by simpa using he) (hf p hp)
  | some q =>
    refine ⟨⟨fun h => Except.noConfusion h, fun hall => ?_⟩, fun r hr => ?_,
      fun _ => ⟨q, rfl⟩⟩
    · exact absurd (by simpa using List.find?_some hf)
        (hall q (List.mem_of_find?_eq_some hf))
    · obtain rfl : q = r := by simpa using hr
      exact ⟨List.mem_of_find?_eq_some hf, by simpa using List.find?_some hf⟩

/-- C8 witness: with no discovered programs the requested platform is
never available, and the error message interpolates the original-case
request. -/
theorem select_platform_program_spec_witness :
    select_platform_program [] "TikTok"
      = Except.error "Platform TikTok not available for this product" :=
  (select_platform_program_spec [] "TikTok").1.mpr (by intro p hp; cases hp)

/-! ## C10: the legacy mock_ai_discovery wrapper -/

/-- C10: the legacy entry point equals the platform-aware discovery at the
fixed defaults trending 70, audience "Age 25-45", price "$50-$100", and
those defaults parse to age range (25, 45) and price tier Medium. -/
theorem mock_ai_discovery_eq_defaults (product_name category : String) :
    AiAffiliate.mock_ai_discovery product_name category
      = AiAffiliate.mock_ai_discovery_with_platforms product_name category 70
          "Age 25-45" "$50-$100"
    ∧ AiAffiliate.extract_age_range "Age 25-45" = (25, 45)
    ∧ AiAffiliate.parse_price_tier "$50-$100" = AiAffiliate.PriceTier.medium :=
  ⟨rfl, by decide, by decide⟩

/-! ## Sub-score bounds of the platform scorer -/

theorem age_alignment_bounds (platform : String) (r : ℤ × ℤ) :
    0 ≤ AiAffiliate.calculate_age_alignment platform r
      ∧ AiAffiliate.calculate_age_alignment platform r ≤ 1 := by
  unfold AiAffiliate.calculate_age_alignment
  dsimp only
  split_ifs <;> norm_num

theorem category_fit_bounds (platform category : String) :
    0 ≤ AiAffiliate.calculate_category_fit platform category
      ∧ AiAffiliate.calculate_category_fit platform category ≤ 1 := by
  unfold AiAffiliate.calculate_category_fit
  split_ifs <;> norm_num

theorem trending_fit_bounds (platform : String) (t : ℤ) :
    0 ≤ AiAffiliate.calculate_trending_fit platform t
      ∧ AiAffiliate.calculate_trending_fit platform t ≤ 1 := by
  unfold AiAffiliate.calculate_trending_fit
  split_ifs <;> norm_num

theorem price_fit_bounds (platform : String) (tier : AiAffiliate.PriceTier) :
    0 ≤ AiAffiliate.calculate_price_fit platform tier
      ∧ AiAffiliate.calculate_price_fit platform tier ≤ 1 := by
  unfold AiAffiliate.calculate_price_fit
  cases tier <;> split_ifs <;> norm_num

theorem platform_score_bounds (platform category : String) (t : ℤ) (r : ℤ × ℤ)
    (tier : AiAffiliate.PriceTier) :
    0 ≤ AiAffiliate.calculate_platform_score platform category t r tier
      ∧ AiAffiliate.calculate_platform_score platform category t r tier ≤ 1 := by
  obtain ⟨a0, a1⟩ := age_alignment_bounds platform r
  obtain ⟨b0, b1⟩ := category_fit_bounds platform category
  obtain ⟨c0, c1⟩ := trending_fit_bounds platform t
  obtain ⟨d0, d1⟩ := price_fit_bounds platform tier
  unfold AiAffiliate.calculate_platform_score
  constructor <;> linarith

/-! ## Structure of the discovery output -/

theorem create_program_platform_eq (pn cat ps : String) (pe : AffiliatePlatform)
    (s : ℚ) (r : ℤ × ℤ) :
    (AiAffiliate.create_program_for_platform pn cat ps pe s r).platform = pe := rfl

theorem create_program_ams_eq (pn cat ps : String) (pe : AffiliatePlatform)
    (s : ℚ) (r : ℤ × ℤ) :
    (AiAffiliate.create_program_for_platform pn cat ps pe s r).audience_match_score = s := rfl

theorem create_program_conf_eq (pn cat ps : String) (pe : AffiliatePlatform)
    (s : ℚ) (r : ℤ × ℤ) :
    (AiAffiliate.create_program_for_platform pn cat ps pe s r).confidence_score
      = 0.85 + s * 0.15 := rfl

/-- Characterisation of membership in the filtered platform loop. -/
theorem mem_discoveredPrograms_iff (pn cat : String) (tr : ℤ) (aud price : String)
    {x : AffiliateProgramDiscovery} :
    x ∈ AiAffiliate.discoveredPrograms pn cat tr aud price ↔
      ∃ pp, pp ∈ AiAffiliate.platformsList
        ∧ AiAffiliate.calculate_platform_score pp.1 cat tr
            (AiAffiliate.extract_age_range aud) (AiAffiliate.parse_price_tier price) > 0.3
        ∧ x = AiAffiliate.create_program_for_platform pn cat pp.1 pp.2
            (AiAffiliate.calculate_platform_score pp.1 cat tr
              (AiAffiliate.extract_age_range aud) (AiAffiliate.parse_price_tier price))
            (AiAffiliate.extract_age_range aud) := by
  unfold AiAffiliate.discoveredPrograms
  rw [List.mem_filterMap]
  constructor
  · rintro ⟨pp, hpp, hx⟩
    obtain ⟨hxe, hsc⟩ := mem_ite_option (Option.mem_def.mpr hx)
    exact ⟨pp, hpp, hsc, hxe⟩
  · rintro ⟨pp, hpp, hsc, hxe⟩
    refine ⟨pp, hpp, ?_⟩
    simp only [if_pos hsc]
    exact congrArg some hxe.symm

/-- Every element of the discovery output comes from the filtered loop. -/
theorem mem_mock_subset (pn cat : String) (tr : ℤ) (aud price : String)
    {x : AffiliateProgramDiscovery}
    (hx : x ∈ AiAffiliate.mock_ai_discovery_with_platforms pn cat tr aud price) :
    x ∈ AiAffiliate.discoveredPrograms pn cat tr aud price := by
  unfold AiAffiliate.mock_ai_discovery_with_platforms at hx
  exact (perm_sortByKeyDesc _ _).subset ((List.take_sublist 5 _).subset hx)

theorem amazon_score_const (category : String) (tr : ℤ) (r : ℤ × ℤ)
    (tier : AiAffiliate.PriceTier) :
    AiAffiliate.calculate_platform_score "amazon" category tr r tier = 0.935 := by
  unfold AiAffiliate.calculate_platform_score AiAffiliate.calculate_age_alignment
    AiAffiliate.calculate_category_fit AiAffiliate.calculate_trending_fit
    AiAffiliate.calculate_price_fit
  simp only [String.reduceEq, if_false]
  norm_num

/-- The amazon program always survives the floor, the sort and the
truncation of the discovery pipeline. -/
theorem amazon_mem_mock (name category : String) (trending : ℤ) (aud price : String) :
    AiAffiliate.create_program_for_platform name category "amazon"
        AffiliatePlatform.amazonAssociates
        (AiAffiliate.calculate_platform_score "amazon" category trending
          (AiAffiliate.extract_age_range aud) (AiAffiliate.parse_price_tier price))
        (AiAffiliate.extract_age_range aud)
      ∈ AiAffiliate.mock_ai_discovery_with_platforms name category trending aud price := by
  have hval := amazon_score_const category trending
    (AiAffiliate.extract_age_range aud) (AiAffiliate.parse_price_tier price)
  have hin : AiAffiliate.create_program_for_platform name category "amazon"
      AffiliatePlatform.amazonAssociates
      (AiAffiliate.calculate_platform_score "amazon" category trending
        (AiAffiliate.extract_age_range aud) (AiAffiliate.parse_price_tier price))
      (AiAffiliate.extract_age_range aud)
      ∈ AiAffiliate.discoveredPrograms name category trending aud price := by
    refine (mem_discoveredPrograms_iff name category trending aud price).mpr
      ⟨("amazon", AffiliatePlatform.amazonAssociates), ?_, ?_, rfl⟩
    · decide
    · rw [hval]
      norm_num
  have hlen : (AiAffiliate.sortByKeyDesc
      (fun q : AffiliateProgramDiscovery => q.audience_match_score)
      (AiAffiliate.discoveredPrograms name category trending aud price)).length ≤ 5 := by
    rw [(perm_sortByKeyDesc _ _).length_eq]
    exact le_trans (List.length_filterMap_le _ _) (by decide)
  unfold AiAffiliate.mock_ai_discovery_with_platforms
  rw [List.take_of_length_le hlen]
  exact (perm_sortByKeyDesc _ _).mem_iff.mpr hin

/-! ## C3: the confidence invariant of discovered programs -/

/-- C3: every program returned by `mock_ai_discovery_with_platforms` has
`confidence_score = 0.85 + 0.15 · audience_match_score`, and this value
lies in `[0.85, 1]` because the composite platform score lies in
`[0, 1]`. -/
theorem discovery_confidence_invariant (pn cat : String) (tr : ℤ) (aud price : String) :
    ∀ x ∈ AiAffiliate.mock_ai_discovery_with_platforms pn cat tr aud price,
      x.confidence_score = 0.85 + 0.15 * x.audience_match_score
      ∧ 0.85 ≤ x.confidence_score ∧ x.confidence_score ≤ 1 := by
  intro x hx
  obtain ⟨pp, -, -, hxe⟩ :=
    (mem_discoveredPrograms_iff pn cat tr aud price).mp (mem_mock_subset pn cat tr aud price hx)
  obtain ⟨h0, h1⟩ := platform_score_bounds pp.1 cat tr
    (AiAffiliate.extract_age_range aud) (AiAffiliate.parse_price_tier price)
  subst hxe
  rw [create_program_conf_eq, create_program_ams_eq]
  refine ⟨by ring, by linarith, by linarith⟩

/-- C3 witness: the invariant at a concrete program of a concrete
discovery call. -/
theorem discovery_confidence_invariant_witness :
    amazonWidgetProgram.confidence_score
      = 0.85 + 0.15 * amazonWidgetProgram.audience_match_score
    ∧ 0.85 ≤ amazonWidgetProgram.confidence_score
    ∧ amazonWidgetProgram.confidence_score ≤ 1 :=
  discovery_confidence_invariant "Widget" "Books" 70 "Age 25-45" "$50-$100"
    amazonWidgetProgram (amazon_mem_mock "Widget" "Books" 70 "Age 25-45" "$50-$100")

/-! ## C9: amazon always clears the floor -/

/-- C9: the amazon composite is the constant
`0.935 = 0.50·0.9 + 0.25·1.0 + 0.15·0.9 + 0.10·1.0`, independent of
category, trending, age range and price tier; it clears the `0.3` floor,
so the discovery output always contains an amazon entry and in particular
is never empty. -/
theorem discovery_always_contains_amazon (name category : String) (trending : ℤ)
    (aud price : String) (r : ℤ × ℤ) (tier : AiAffiliate.PriceTier) :
    AiAffiliate.calculate_platform_score "amazon" category trending r tier
        = 0.50 * 0.9 + 0.25 * 1.0 + 0.15 * 0.9 + 0.10 * 1.0
    ∧ AiAffiliate.calculate_platform_score "amazon" category trending r tier = 0.935
    ∧ (∃ p ∈ AiAffiliate.mock_ai_discovery_with_platforms name category trending aud price,
        p.platform = AffiliatePlatform.amazonAssociates)
    ∧ AiAffiliate.mock_ai_discovery_with_platforms name category trending aud price ≠ [] := by
  have hmem : ∃ p ∈ AiAffiliate.mock_ai_discovery_with_platforms name category trending aud price,
      p.platform = AffiliatePlatform.amazonAssociates :=
    ⟨_, amazon_mem_mock name category trending aud price,
      create_program_platform_eq _ _ _ _ _ _⟩
  refine ⟨by rw [amazon_score_const]; norm_num, amazon_score_const category trending r tier,
    hmem, ?_⟩
  obtain ⟨p, hp, -⟩ := hmem
  exact List.ne_nil_of_mem hp

/-! ## C2: shape of the discovery output -/

/-- C2: the discovery output has at most five entries, every entry's
audience match score is strictly above `0.3`, and the list is ordered by
strictly decreasing audience match score with ties kept in the platform
enumeration order tiktok, instagram, amazon, youtube, pinterest. -/
theorem discovery_sorted_filtered (pn cat : String) (tr : ℤ) (aud price : String) :
    (AiAffiliate.mock_ai_discovery_with_platforms pn cat tr aud price).length ≤ 5
    ∧ (∀ x ∈ AiAffiliate.mock_ai_discovery_with_platforms pn cat tr aud price,
        x.audience_match_score > 0.3)
    ∧ (AiAffiliate.mock_ai_discovery_with_platforms pn cat tr aud price).Pairwise
        (rankedBelow (fun q => q.audience_match_score) (fun q => q.platform.enumIdx)) := by
  refine ⟨?_, ?_, ?_⟩
  · show ((AiAffiliate.sortByKeyDesc
        (fun q : AffiliateProgramDiscovery => q.audience_match_score)
        (AiAffiliate.discoveredPrograms pn cat tr aud price)).take 5).length ≤ 5
    rw [List.length_take]
    exact min_le_left _ _
  · intro x hx
    obtain ⟨pp, -, hsc, hxe⟩ := (mem_discoveredPrograms_iff pn cat tr aud price).mp
      (mem_mock_subset pn cat tr aud price hx)
    subst hxe
    rw [create_program_ams_eq]
    exact hsc
  · have base : AiAffiliate.platformsList.Pairwise
        (fun pp qq => pp.2.enumIdx < qq.2.enumIdx) := by decide
    have hinput : (AiAffiliate.discoveredPrograms pn cat tr aud price).Pairwise
        (fun a b => a.platform.enumIdx < b.platform.enumIdx) := by
      unfold AiAffiliate.discoveredPrograms
      refine List.pairwise_filterMap.mpr (base.imp ?_)
      intro pp qq h b hb b' hb'
      obtain ⟨hbe, -⟩ := mem_ite_option hb
      obtain ⟨hbe', -⟩ := mem_ite_option hb'
      subst hbe
      subst hbe'
      rw [create_program_platform_eq, create_program_platform_eq]
      exact h
    exact List.Pairwise.sublist (List.take_sublist 5 _)
      (pairwise_sortByKeyDesc
        (fun q : AffiliateProgramDiscovery => q.audience_match_score)
        (fun q : AffiliateProgramDiscovery => q.platform.enumIdx) _ hinput)

/-- C2 witness: the shape facts at a concrete discovery call, including
the filter bound instantiated at a concrete returned program. -/
theorem discovery_sorted_filtered_witness :
    (AiAffiliate.mock_ai_discovery_with_platforms "Widget" "Books" 70
      "Age 25-45" "$50-$100").length ≤ 5
    ∧ amazonWidgetProgram.audience_match_score > 0.3 := by
  obtain ⟨h1, h2, -⟩ :=
    discovery_sorted_filtered "Widget" "Books" 70 "Age 25-45" "$50-$100"
  exact ⟨h1, h2 amazonWidgetProgram (amazon_mem_mock "Widget" "Books" 70 "Age 25-45" "$50-$100")⟩

/-! ## C1: shape of the ad-type analysis -/

theorem mkScore_ad_type (p : Product) (t : AnalyticsService.AdType) :
    (AnalyticsService.mkScore p t).ad_type = t := rfl

theorem adType_mem_all (t : AnalyticsService.AdType) :
    t ∈ AnalyticsService.AdType.all := by
  cases t <;> decide

theorem mem_scoresList_eq (p : Product) {s : AnalyticsService.AdTypeScore}
    (hs : s ∈ AnalyticsService.scoresList p) :
    AnalyticsService.mkScore p s.ad_type = s := by
  obtain ⟨t, -, rfl⟩ := List.mem_map.mp hs
  rfl

/-- C1: for every product the analysis satisfies the claimed contract: the
composite is the 30/35/20/15-weighted sum; there is a full ranking of the
six formats, a permutation of the score list ordered by strictly
decreasing total with ties in enumeration order, whose first four entries
are exactly the recommended format followed by the alternatives; the
recommended format's total is maximal (enumeration-first among ties); the
confidence is the winner's total clamped into `[0, 1]`; and there are at
most three alternatives, all distinct from the recommendation and from
each other. -/
theorem analyze_ranking_spec (p : Product) :
    (∀ t : AnalyticsService.AdType,
      AnalyticsService.adTotal p t
        = 0.30 * AnalyticsService.calculate_category_score p.category t
          + 0.35 * AnalyticsService.calculate_audience_score p.target_audience t
          + 0.20 * AnalyticsService.calculate_trending_score p.trending_score t
          + 0.15 * AnalyticsService.calculate_platform_score p t)
    ∧ (∃ ranking : List AnalyticsService.AdTypeScore,
        ranking.Perm (AnalyticsService.scoresList p)
        ∧ ranking.Pairwise (rankedBelow
            (fun s : AnalyticsService.AdTypeScore => s.total_score)
            (fun s : AnalyticsService.AdTypeScore => s.ad_type.enumIdx))
        ∧ (AnalyticsService.analyze_market_for_product p).recommended_ad_type
            :: (AnalyticsService.analyze_market_for_product p).alternative_types
          = (ranking.take 4).map (fun s => s.ad_type))
    ∧ (∀ t : AnalyticsService.AdType,
        AnalyticsService.adTotal p t ≤ AnalyticsService.adTotal p
          (AnalyticsService.analyze_market_for_product p).recommended_ad_type)
    ∧ (∀ t : AnalyticsService.AdType,
        AnalyticsService.adTotal p t = AnalyticsService.adTotal p
            (AnalyticsService.analyze_market_for_product p).recommended_ad_type →
        (AnalyticsService.analyze_market_for_product p).recommended_ad_type.enumIdx
          ≤ t.enumIdx)
    ∧ (AnalyticsService.analyze_market_for_product p).confidence_score
        = ratClamp (AnalyticsService.adTotal p
            (AnalyticsService.analyze_market_for_product p).recommended_ad_type) 0 1
    ∧ 0 ≤ (AnalyticsService.analyze_market_for_product p).confidence_score
    ∧ (AnalyticsService.analyze_market_for_product p).confidence_score ≤ 1
    ∧ (AnalyticsService.analyze_market_for_product p).alternative_types.length ≤ 3
    ∧ (AnalyticsService.analyze_market_for_product p).recommended_ad_type
        ∉ (AnalyticsService.analyze_market_for_product p).alternative_types
    ∧ (AnalyticsService.analyze_market_for_product p).alternative_types.Nodup := by
  have hperm := perm_sortByKeyDesc
    (fun s : AnalyticsService.AdTypeScore => s.total_score)
    (AnalyticsService.scoresList p)
  have hidx : (AnalyticsService.scoresList p).Pairwise
      (fun a b => a.ad_type.enumIdx < b.ad_type.enumIdx) := by
    unfold AnalyticsService.scoresList
    refine List.pairwise_map.mpr ?_
    have hbase : AnalyticsService.AdType.all.Pairwise
        (fun a b => a.enumIdx < b.enumIdx) := by decide
    exact hbase.imp (fun h => by rwa [mkScore_ad_type, mkScore_ad_type])
  have hpair := pairwise_sortByKeyDesc
    (fun s : AnalyticsService.AdTypeScore => s.total_score)
    (fun s : AnalyticsService.AdTypeScore => s.ad_type.enumIdx) _ hidx
  have hlen6 : (AiAffiliate.sortByKeyDesc
      (fun s : AnalyticsService.AdTypeScore => s.total_score)
      (AnalyticsService.scoresList p)).length = 6 := by
    rw [hperm.length_eq]
    rfl
  obtain ⟨best, rest, hs⟩ : ∃ b r, AiAffiliate.sortByKeyDesc
      (fun s : AnalyticsService.AdTypeScore => s.total_score)
      (AnalyticsService.scoresList p) = b :: r := by
    cases h : AiAffiliate.sortByKeyDesc
        (fun s : AnalyticsService.AdTypeScore => s.total_score)
        (AnalyticsService.scoresList p) with
    | nil => rw [h] at hlen6; cases hlen6
    | cons b r => exact ⟨b, r, rfl⟩
  rw [hs] at hpair
  have hpermc : (best :: rest).Perm (AnalyticsService.scoresList p) := by
    rw [← hs]
    exact hperm
  have hA : AnalyticsService.analyze_market_for_product p =
      { recommended_ad_type := best.ad_type
        confidence_score := max 0 (min best.total_score 1)
        reasoning := AnalyticsService.generate_reasoning p best
        alternative_types := (rest.take 3).map (fun s => s.ad_type) } := by
    unfold AnalyticsService.analyze_market_for_product
    rw [hs]
  have hbest_mem : best ∈ AnalyticsService.scoresList p :=
    hpermc.subset (List.mem_cons_self best rest)
  have hkey_best : AnalyticsService.adTotal p best.ad_type = best.total_score := by
    unfold AnalyticsService.adTotal
    rw [mem_scoresList_eq p hbest_mem]
  have hmemsort : ∀ t : AnalyticsService.AdType,
      AnalyticsService.mkScore p t ∈ best :: rest := by
    intro t
    exact hpermc.mem_iff.mpr (List.mem_map_of_mem _ (adType_mem_all t))
  have hmax : ∀ t : AnalyticsService.AdType,
      AnalyticsService.adTotal p t ≤ best.total_score := by
    intro t
    rcases List.mem_cons.mp (hmemsort t) with he | hm
    · exact le_of_eq (congrArg (fun s => s.total_score) he)
    · exact rankedBelow_le (List.rel_of_pairwise_cons hpair hm)
  have htie : ∀ t : AnalyticsService.AdType,
      AnalyticsService.adTotal p t = best.total_score →
        best.ad_type.enumIdx ≤ t.enumIdx := by
    intro t he
    rcases List.mem_cons.mp (hmemsort t) with heq | hm
    · have hba : best.ad_type = t := by
        rw [← heq]
        exact mkScore_ad_type p t
      rw [hba]
    · rcases List.rel_of_pairwise_cons hpair hm with hlt | ⟨-, hidxlt⟩
      · have hlt' : (AnalyticsService.mkScore p t).total_score < best.total_score := hlt
        have he' : (AnalyticsService.mkScore p t).total_score = best.total_score := he
        exact absurd he' (ne_of_lt hlt')
      · have hidxlt' : best.ad_type.enumIdx
            < (AnalyticsService.mkScore p t).ad_type.enumIdx := hidxlt
        rw [mkScore_ad_type] at hidxlt'
        exact le_of_lt hidxlt'
  have hnodup : (best.ad_type :: rest.map (fun s => s.ad_type)).Nodup := by
    have hperm2 := hpermc.map (fun s : AnalyticsService.AdTypeScore => s.ad_type)
    have hall : (AnalyticsService.scoresList p).map
        (fun s : AnalyticsService.AdTypeScore => s.ad_type)
        = AnalyticsService.AdType.all := rfl
    rw [hall] at hperm2
    exact hperm2.nodup_iff.mpr (by decide)
  obtain ⟨hnotmem, hnd⟩ := List.nodup_cons.mp hnodup
  refine ⟨?_, ⟨best :: rest, hpermc, hpair, ?_⟩, ?_, ?_, ?_, ?_, ?_, ?_, ?_, ?_⟩
  · intro t
    show (AnalyticsService.mkScore p t).total_score = _
    unfold AnalyticsService.mkScore AnalyticsService.AdTypeScore.calculate_total
    dsimp only
    ring
  · rw [hA]
    rfl
  · intro t
    rw [hA]
    dsimp only
    rw [hkey_best]
    exact hmax t
  · intro t he
    rw [hA] at he ⊢
    dsimp only at he ⊢
    rw [hkey_best] at he
    exact htie t he
  · rw [hA]
    dsimp only
    rw [hkey_best]
    rfl
  · rw [hA]
    exact le_max_left 0 _
  · rw [hA]
    exact max_le (by norm_num) (le_trans (min_le_right _ _) (by norm_num))
  · rw [hA]
    dsimp only
    rw [List.length_map, List.length_take]
    exact min_le_left _ _
  · rw [hA]
    dsimp only
    intro hin
    refine hnotmem ?_
    rw [List.map_take] at hin
    exact (List.take_sublist 3 _).subset hin
  · rw [hA]
    dsimp only
    rw [List.map_take]
    exact List.Nodup.sublist (List.take_sublist 3 _) hnd

/-- C1 witness: the contract instantiated at a concrete product. -/
theorem analyze_ranking_spec_witness :
    (AnalyticsService.analyze_market_for_product healthTestProduct).alternative_types.length ≤ 3
    ∧ 0 ≤ (AnalyticsService.analyze_market_for_product healthTestProduct).confidence_score
    ∧ (AnalyticsService.analyze_market_for_product healthTestProduct).confidence_score ≤ 1
    ∧ AnalyticsService.adTotal healthTestProduct AnalyticsService.AdType.socialPost
        ≤ AnalyticsService.adTotal healthTestProduct
          (AnalyticsService.analyze_market_for_product healthTestProduct).recommended_ad_type := by
  obtain ⟨-, -, hmax, -, -, h0, h1, hlen, -, -⟩ := analyze_ranking_spec healthTestProduct
  exact ⟨hlen, h0, h1, hmax AnalyticsService.AdType.socialPost⟩

/-- C9 witness: concrete discovery calls expose the amazon constant. -/
theorem discovery_always_contains_amazon_witness :
    AiAffiliate.calculate_platform_score "amazon" "Books" 13 (25, 45)
        AiAffiliate.PriceTier.low = 0.935
    ∧ AiAffiliate.mock_ai_discovery_with_platforms "Widget" "Books" 13 "" "" ≠ [] := by
  obtain ⟨-, h2, -, h4⟩ :=
    discovery_always_contains_amazon "Widget" "Books" 13 "" "" (25, 45)
      AiAffiliate.PriceTier.low
  exact ⟨h2, h4⟩

end Affilai
